import Mathlib

/-!
Shallow embedding of `src/agiletest_cli/agiletest_client.py`:
the `AgiletestAuth` httpx auth-flow generator and the `AgiletestHelper`
upload client.  HTTP side effects are modelled by an explicit response
oracle `resp : Nat -> HResponse` supplying, in order, the response to each
request yielded by the flow; raised Python exceptions become `Except.error`
carrying the exception message.  Configuration values imported from
`config.py` (absent from the sources) are gathered in a `Config` record.
-/

deriving instance DecidableEq for Except

/-- Python str.lower modelled character-wise, so that it computes inside
the kernel. -/
def lowerString (s : String) : String := String.mk (s.data.map Char.toLower)

/-- A decoded JSON object of the shape the upload endpoints return:
keys read by the client are key, url and missedCases. -/
structure JsonObj where
  key : Option String := none
  url : Option String := none
  missedCases : List String := []
deriving DecidableEq, Repr

/-- Multipart files argument: list of (part name, (filename, content, mime type)),
mirroring the httpx files dict of tuples. -/
def FilesDict : Type := List (String × (String × String × String))
deriving DecidableEq, Repr

/-- An outbound HTTP request, carrying the fields the client code sets:
method, url path, query params, headers, raw body, JSON body and multipart files. -/
structure HRequest where
  method : String := "POST"
  url : String := ""
  params : List (String × String) := []
  headers : List (String × String) := []
  content : Option String := none
  jsonBody : Option (List (String × String)) := none
  files : Option FilesDict := none
deriving DecidableEq, Repr

/-- An inbound HTTP response: status code, body text, and the result of
parsing the body as JSON (none when the body is not valid JSON). -/
structure HResponse where
  status : Nat := 200
  text : String := ""
  body_json : Option JsonObj := none
deriving DecidableEq, Repr

/-- httpx Response.is_success: status in the 2xx range; raise_for_status
raises exactly when this is false. -/
def is_success (status : Nat) : Bool :=
  decide (200 ≤ status ∧ status < 300)

/-- Assignment request.headers[k] = v of the Python code: replace any
existing entry for the key. -/
def setHeader (r : HRequest) (k v : String) : HRequest :=
  { r with headers := (r.headers.filter (fun p => p.1 ≠ k)) ++ [(k, v)] }

/-- State of an AgiletestAuth instance: the constructor arguments plus the
mutable cached token. -/
structure AuthState where
  client_id : String
  client_secret : String
  base_url : String
  token : String := ""
  data_center : Bool := false
  data_center_token : String := ""
deriving DecidableEq, Repr

/-- AgiletestAuth.__init__: validates the mode-dependent credentials and
returns the initial state (token starts empty); ValueError becomes an error. -/
def AgiletestAuth_init (client_id client_secret base_auth_url : String)
    (data_center : Bool) (data_center_token : String) : Except String AuthState :=
  if data_center = false ∧ (client_id = "" ∨ client_secret = "") then
    Except.error "Client ID and Client Secret are required for Cloud version"
  else if data_center = true ∧ data_center_token = "" then
    Except.error "AGILETEST_DC_TOKEN is required in Data Center mode"
  else
    Except.ok { client_id := client_id, client_secret := client_secret,
                base_url := base_auth_url, token := "",
                data_center := data_center, data_center_token := data_center_token }

/-- jwt claim decoding abstracted: a decoder returns none when jwt.decode
raises DecodeError, and otherwise the optional exp claim of the payload. -/
def JwtDecoder : Type := String → Option (Option Int)

/-- AgiletestAuth._check_valid_token: an empty token is invalid; a token
that fails to decode is invalid; otherwise valid iff the exp claim
(defaulting to 0) is strictly greater than the current time. -/
def check_valid_token (decode : JwtDecoder) (token : String) (now : Int) : Bool :=
  if token = "" then false
  else
    match decode token with
    | none => false
    | some claims => decide (claims.getD 0 > now)

/-- AgiletestAuth.build_refresh_request: POST to
base_url/api/apikeys/authenticate with clientId and clientSecret as JSON body. -/
def build_refresh_request (st : AuthState) : HRequest :=
  { method := "POST",
    url := st.base_url ++ "/api/apikeys/authenticate",
    jsonBody := some [("clientId", st.client_id), ("clientSecret", st.client_secret)] }

/-- AgiletestAuth.update_token: raise_for_status on the refresh response
(non-2xx raises, leaving the token unchanged), then cache the stripped
response body as the new token. -/
def update_token (st : AuthState) (r : HResponse) : Except String AuthState :=
  if is_success r.status then Except.ok { st with token := r.text.trim }
  else Except.error ("Failed to refresh token: " ++ toString r.status ++ " - " ++ r.text)

/-- AgiletestAuth.auth_flow as a function of the response oracle: returns
the list of requests yielded in order, the final auth state, and the
response to the last yielded request (the response httpx hands back to the
caller); a raise inside the flow becomes an error. -/
def auth_flow (decode : JwtDecoder) (now : Int) (st : AuthState)
    (req : HRequest) (resp : Nat → HResponse) :
    Except String (List HRequest × AuthState × HResponse) :=
  if st.data_center then
    Except.ok ([setHeader req "Authorization" ("Bearer " ++ st.data_center_token)],
               st, resp 0)
  else
    let step1 : Except String (AuthState × Nat × List HRequest) :=
      if check_valid_token decode st.token now then Except.ok (st, 0, [])
      else
        match update_token st (resp 0) with
        | Except.error e => Except.error e
        | Except.ok st1 => Except.ok (st1, 1, [build_refresh_request st])
    match step1 with
    | Except.error e => Except.error e
    | Except.ok (st1, i, sent0) =>
      let req1 := setHeader req "Authorization" ("JWT " ++ st1.token)
      if (resp i).status = 401 then
        match update_token st1 (resp (i + 1)) with
        | Except.error e => Except.error e
        | Except.ok st2 =>
          let req2 := setHeader req1 "Authorization" ("JWT " ++ st2.token)
          Except.ok (sent0 ++ [req1, build_refresh_request st1, req2], st2, resp (i + 2))
      else
        Except.ok (sent0 ++ [req1], st1, resp i)

/-- Configuration values imported from config.py (the module is not among
the sources); the three tables the client reads. -/
structure Config where
  TEST_EXECUTION_TYPES : List String
  FRAMEWORK_RESULT_FILETYPE_MAPPING : List (String × String)
  MIME_TYPE_MAPPING : List (String × String)
deriving DecidableEq, Repr

/-- Modelled from the spec: config.py is absent from the sources, so the
tables are populated from the spec's examples: framework junit maps to
extension xml with mime application/xml, and the metadata part uses the
fixed json mime type. -/
def defaultConfig : Config :=
  { TEST_EXECUTION_TYPES := ["junit"],
    FRAMEWORK_RESULT_FILETYPE_MAPPING := [("junit", "xml")],
    MIME_TYPE_MAPPING := [("xml", "application/xml"), ("json", "application/json")] }

/-- State of an AgiletestHelper instance: base url, the auth instance and
the data_center flag. -/
structure Helper where
  base_url : String := ""
  auth : AuthState
  data_center : Bool := false
deriving DecidableEq, Repr

/-- AgiletestHelper._check_response: False on non-2xx status
(raise_for_status caught), False when json_check and the body is not
parseable JSON, True otherwise. -/
def check_response (r : HResponse) (json_check : Bool) : Bool :=
  if is_success r.status = false then false
  else if json_check then r.body_json.isSome
  else true

/-- AgiletestHelper._check_auto_test_framework_type: lowercase the
framework type, raise ValueError when it is not among the supported types,
return the lowercased value otherwise. -/
def check_auto_test_framework_type (cfg : Config) (framework_type : String) :
    Except String String :=
  let ft := lowerString framework_type
  if cfg.TEST_EXECUTION_TYPES.contains ft then Except.ok ft
  else
    Except.error ("Invalid test execution type: " ++ ft ++
      ". Supported frameworks: " ++ toString cfg.TEST_EXECUTION_TYPES)

/-- AgiletestHelper._get_file_type_from_test_framework: two sequential
lookups, framework to extension then extension to mime type; a missing
entry in either raises ValueError. -/
def get_file_type_from_test_framework (cfg : Config) (framework_type : String) :
    Except String (String × String) :=
  match cfg.FRAMEWORK_RESULT_FILETYPE_MAPPING.lookup framework_type with
  | none => Except.error ("Extension not found for framework type " ++ framework_type)
  | some extension =>
    match cfg.MIME_TYPE_MAPPING.lookup extension with
    | none => Except.error ("Mime type not found for extension " ++ extension)
    | some mime_type => Except.ok (extension, mime_type)

/-- Result of an upload operation: the Python return type bool | dict,
False on failure and the decoded JSON dict on success. -/
inductive UploadResult where
  | failure : UploadResult
  | success : JsonObj → UploadResult
deriving DecidableEq, Repr

/-- Interpretation of the upload response shared by both upload operations:
return False when _check_response fails, else res.json(). -/
def interpret_upload_response (sent : List HRequest) (st : AuthState) (res : HResponse) :
    Except String (UploadResult × AuthState × List HRequest) :=
  if check_response res true = false then Except.ok (UploadResult.failure, st, sent)
  else
    match res.body_json with
    | some j => Except.ok (UploadResult.success j, st, sent)
    | none => Except.error "JSONDecodeError"

/-- AgiletestHelper.upload_test_execution_text_data: validate the
framework, choose the mode-dependent path, build query params (projectKey
always, testExecutionKey only when non-empty), resolve the mime type, POST
the raw payload through the auth flow, and interpret the response.
The result also carries the final auth state and the requests sent. -/
def upload_test_execution_text_data (cfg : Config) (h : Helper)
    (decode : JwtDecoder) (now : Int)
    (framework_type project_key test_data test_execution_key : String)
    (resp : Nat → HResponse) :
    Except String (UploadResult × AuthState × List HRequest) :=
  match check_auto_test_framework_type cfg framework_type with
  | Except.error e => Except.error e
  | Except.ok ft =>
    let apiPath :=
      if h.data_center then "/rest/agiletest/1.0/test-executions/automation/" ++ ft
      else "/ds/test-executions/" ++ ft
    let params := [("projectKey", project_key)] ++
      (if test_execution_key ≠ "" then [("testExecutionKey", test_execution_key)] else [])
    match get_file_type_from_test_framework cfg ft with
    | Except.error e => Except.error e
    | Except.ok (_, mime_type) =>
      let req : HRequest :=
        { method := "POST", url := apiPath, params := params,
          headers := [("Content-Type", mime_type)], content := some test_data }
      match auth_flow decode now h.auth req resp with
      | Except.error e => Except.error e
      | Except.ok (sent, st1, res) => interpret_upload_response sent st1 res

/-- AgiletestHelper.upload_test_execution_multipart: validate the
framework, resolve extension and mime type, build the two named parts
(results and testExecution), choose the mode-dependent path, POST through
the auth flow, and interpret the response. -/
def upload_test_execution_multipart (cfg : Config) (h : Helper)
    (decode : JwtDecoder) (now : Int)
    (framework_type test_results test_execution_info : String)
    (resp : Nat → HResponse) :
    Except String (UploadResult × AuthState × List HRequest) :=
  match check_auto_test_framework_type cfg framework_type with
  | Except.error e => Except.error e
  | Except.ok ft =>
    match get_file_type_from_test_framework cfg ft with
    | Except.error e => Except.error e
    | Except.ok (tr_extension, tr_mime_type) =>
      match cfg.MIME_TYPE_MAPPING.lookup "json" with
      | none => Except.error "KeyError: json"
      | some json_mime =>
        let files : FilesDict :=
          [("results", ("results." ++ tr_extension, test_results, tr_mime_type)),
           ("testExecution", ("info.json", test_execution_info, json_mime))]
        let apiPath :=
          if h.data_center then "/plugins/servlet/agiletest/automation/multipart/" ++ ft
          else "/ds/test-executions/" ++ ft ++ "/multipart"
        let req : HRequest := { method := "POST", url := apiPath, files := some files }
        match auth_flow decode now h.auth req resp with
        | Except.error e => Except.error e
        | Except.ok (sent, st1, res) => interpret_upload_response sent st1 res

/-! Concrete fixtures used by witness theorems. -/

/-- A decoder that always yields an exp claim of 100. -/
def wDecode : JwtDecoder := fun _ => some (some 100)

/-- A decoder that always fails (jwt.DecodeError). -/
def wDecodeNone : JwtDecoder := fun _ => none

/-- A data-center auth state. -/
def wAuthDC : AuthState :=
  { client_id := "id", client_secret := "sec", base_url := "https://auth",
    token := "", data_center := true, data_center_token := "DCT" }

/-- A cloud auth state with a cached token. -/
def wAuthCloud : AuthState :=
  { client_id := "id", client_secret := "sec", base_url := "https://auth", token := "tok" }

/-- A data-center helper. -/
def wHelperDC : Helper :=
  { base_url := "https://base", auth := wAuthDC, data_center := true }

/-- A cloud helper. -/
def wHelperCloud : Helper :=
  { base_url := "https://base", auth := wAuthCloud, data_center := false }

/-- A decoded upload response body with a non-empty missedCases list. -/
def wJson : JsonObj := { key := some "K", url := some "U", missedCases := ["tc1"] }

/-- A successful upload response with JSON body. -/
def wOk : HResponse := { status := 200, text := "body", body_json := some wJson }

/-- A successful token-refresh response whose body has surrounding whitespace. -/
def wTok : HResponse := { status := 200, text := " newtok " }

/-- An unauthorized response. -/
def w401 : HResponse := { status := 401, text := "unauth" }

/-- Oracle for the 401-retry scenario: primary request is rejected, the
refresh succeeds, and the retried request is rejected again. -/
def wRespRetry : Nat → HResponse :=
  fun n => if n = 0 then w401 else if n = 1 then wTok else w401

/-- Setting the same header twice keeps only the last value. -/
theorem setHeader_setHeader (r : HRequest) (k v w : String) :
    setHeader (setHeader r k v) k w = setHeader r k w := by
  simp [setHeader, List.filter_append, List.filter_filter]

/-- C3: in data-center mode the auth flow, for every token state and every
oracle, yields exactly the one original request with the static token
attached as an Authorization Bearer header, and never issues a
credential-exchange request. -/
theorem c3_data_center_never_refreshes (decode : JwtDecoder) (now : Int)
    (st : AuthState) (req : HRequest) (resp : Nat → HResponse)
    (hdc : st.data_center = true) :
    auth_flow decode now st req resp =
      Except.ok ([setHeader req "Authorization" ("Bearer " ++ st.data_center_token)],
                 st, resp 0) := by
  simp [auth_flow, hdc]

/-- Witness for C3 at a concrete data-center state and oracle. -/
theorem c3_data_center_never_refreshes_witness :
    auth_flow wDecode 0 wAuthDC {} (fun _ => wOk) =
      Except.ok ([setHeader {} "Authorization" ("Bearer " ++ wAuthDC.data_center_token)],
                 wAuthDC, wOk) :=
  c3_data_center_never_refreshes wDecode 0 wAuthDC {} (fun _ => wOk) rfl

/-- C2: in cloud mode, a valid cached token (decoded exp strictly in the
future) is reused: the flow sends only the original request with header
Authorization JWT token and the state is unchanged; an invalid token
triggers exactly one credential-exchange request before the original
request, which is then sent with the freshly cached (trimmed) token. -/
theorem c2_refresh_iff_token_invalid (decode : JwtDecoder) (now : Int)
    (st : AuthState) (req : HRequest) (resp : Nat → HResponse)
    (hdc : st.data_center = false) :
    (check_valid_token decode st.token now = true → (resp 0).status ≠ 401 →
      auth_flow decode now st req resp =
        Except.ok ([setHeader req "Authorization" ("JWT " ++ st.token)], st, resp 0)) ∧
    (check_valid_token decode st.token now = false →
      is_success (resp 0).status = true → (resp 1).status ≠ 401 →
      auth_flow decode now st req resp =
        Except.ok ([build_refresh_request st,
                    setHeader req "Authorization" ("JWT " ++ (resp 0).text.trim)],
                   { st with token := (resp 0).text.trim }, resp 1)) := by
  constructor
  · intro hvalid h401
    simp [auth_flow, hdc, hvalid, h401]
  · intro hinvalid hok h401
    simp [auth_flow, hdc, hinvalid, update_token, hok, h401]

/-- Witness for C2: valid-token reuse at a concrete cloud state, plus the
single-refresh path at a concrete state whose token does not decode. -/
theorem c2_refresh_iff_token_invalid_witness :
    auth_flow wDecode 0 wAuthCloud {} (fun _ => wOk) =
      Except.ok ([setHeader {} "Authorization" ("JWT " ++ wAuthCloud.token)],
                 wAuthCloud, wOk) ∧
    auth_flow wDecodeNone 0 wAuthCloud {} (fun n => if n = 0 then wTok else wOk) =
      Except.ok ([build_refresh_request wAuthCloud,
                  setHeader {} "Authorization" ("JWT " ++ wTok.text.trim)],
                 { wAuthCloud with token := wTok.text.trim }, wOk) := by
  constructor
  · exact (c2_refresh_iff_token_invalid wDecode 0 wAuthCloud {} (fun _ => wOk) rfl).1
      (by decide) (by decide)
  · exact (c2_refresh_iff_token_invalid wDecodeNone 0 wAuthCloud {}
      (fun n => if n = 0 then wTok else wOk) rfl).2 (by decide) (by decide) (by decide)

/-- C1: in cloud mode, when the primary request (sent with a valid cached
token) is answered 401 and the subsequent refresh succeeds, the flow
performs exactly one additional refresh, re-attaches the new token and
re-sends the original request exactly once: the full trace is primary,
refresh, retried primary, and the flow terminates there; when the retried
request is answered 401 again, the upload operation built on the flow
returns the failure sentinel False instead of refreshing or retrying
further. -/
theorem c1_single_401_retry (decode : JwtDecoder) (now : Int) (st : AuthState)
    (req : HRequest) (resp : Nat → HResponse)
    (hdc : st.data_center = false)
    (hvalid : check_valid_token decode st.token now = true)
    (h401 : (resp 0).status = 401)
    (hrefresh : is_success (resp 1).status = true) :
    auth_flow decode now st req resp =
      Except.ok ([setHeader req "Authorization" ("JWT " ++ st.token),
                  build_refresh_request st,
                  setHeader req "Authorization" ("JWT " ++ (resp 1).text.trim)],
                 { st with token := (resp 1).text.trim }, resp 2) ∧
    ((resp 2).status = 401 →
      ∀ (cfg : Config) (h : Helper) (ftype pk td tek ft' ext mime : String),
        h.auth = st →
        check_auto_test_framework_type cfg ftype = Except.ok ft' →
        get_file_type_from_test_framework cfg ft' = Except.ok (ext, mime) →
        Except.map (fun o => o.1)
          (upload_test_execution_text_data cfg h decode now ftype pk td tek resp) =
          Except.ok UploadResult.failure) := by
  constructor
  · simp [auth_flow, hdc, hvalid, h401, update_token, hrefresh, setHeader_setHeader]
  · intro h401b cfg h ftype pk td tek ft' ext mime hauth hchk hmime
    subst hauth
    have hfail : check_response (resp 2) true = false := by
      simp [check_response, is_success, h401b]
    simp [upload_test_execution_text_data, hchk, hmime, auth_flow, hdc, hvalid,
          h401, update_token, hrefresh, interpret_upload_response, hfail, Except.map]

/-- Witness for C1: the concrete 401, refresh, 401 scenario; the trace has
exactly three requests and the text upload returns False. -/
theorem c1_single_401_retry_witness :
    auth_flow wDecode 0 wAuthCloud {} wRespRetry =
      Except.ok ([setHeader {} "Authorization" ("JWT " ++ wAuthCloud.token),
                  build_refresh_request wAuthCloud,
                  setHeader {} "Authorization" ("JWT " ++ (wRespRetry 1).text.trim)],
                 { wAuthCloud with token := (wRespRetry 1).text.trim }, wRespRetry 2) ∧
    Except.map (fun o => o.1)
      (upload_test_execution_text_data defaultConfig wHelperCloud wDecode 0
        "junit" "PK" "data" "" wRespRetry) =
      Except.ok UploadResult.failure := by
  have h := c1_single_401_retry wDecode 0 wAuthCloud {} wRespRetry rfl
    (by decide) (by decide) (by decide)
  exact ⟨h.1, h.2 (by decide) defaultConfig wHelperCloud "junit" "PK" "data" ""
    "junit" "xml" "application/xml" rfl (by decide) (by decide)⟩

/-- C5: for every upload response delivered to the text upload: a non-2xx
status or an unparseable JSON body yields the failure sentinel False
without raising; a 2xx status with a parsed JSON body j yields the success
payload j, for every j, including every j with a non-empty missedCases
list. -/
theorem c5_response_interpretation (cfg : Config) (h : Helper)
    (decode : JwtDecoder) (now : Int) (ftype pk td tek ft' ext mime : String)
    (res : HResponse)
    (hadc : h.auth.data_center = true)
    (hchk : check_auto_test_framework_type cfg ftype = Except.ok ft')
    (hmime : get_file_type_from_test_framework cfg ft' = Except.ok (ext, mime)) :
    ((is_success res.status = false ∨ res.body_json = none) →
      Except.map (fun o => o.1)
        (upload_test_execution_text_data cfg h decode now ftype pk td tek (fun _ => res)) =
        Except.ok UploadResult.failure) ∧
    (∀ j : JsonObj, is_success res.status = true → res.body_json = some j →
      Except.map (fun o => o.1)
        (upload_test_execution_text_data cfg h decode now ftype pk td tek (fun _ => res)) =
        Except.ok (UploadResult.success j)) := by
  constructor
  · intro hf
    have hfail : check_response res true = false := by
      rcases hf with hf | hf
      · simp [check_response, hf]
      · simp [check_response, hf]
    simp [upload_test_execution_text_data, hchk, hmime, auth_flow, hadc,
          interpret_upload_response, hfail, Except.map]
  · intro j hok hjson
    have hpass : check_response res true = true := by
      simp [check_response, hok, hjson]
    simp [upload_test_execution_text_data, hchk, hmime, auth_flow, hadc,
          interpret_upload_response, hpass, hjson, Except.map]

/-- Witness for C5: a 401 body yields False; a 200 response whose JSON
body has a non-empty missedCases list yields that JSON as success. -/
theorem c5_response_interpretation_witness :
    Except.map (fun o => o.1)
      (upload_test_execution_text_data defaultConfig wHelperDC wDecode 0
        "junit" "PK" "data" "" (fun _ => w401)) = Except.ok UploadResult.failure ∧
    Except.map (fun o => o.1)
      (upload_test_execution_text_data defaultConfig wHelperDC wDecode 0
        "junit" "PK" "data" "" (fun _ => wOk)) =
      Except.ok (UploadResult.success wJson) ∧
    wJson.missedCases ≠ [] := by
  refine ⟨?_, ?_, by decide⟩
  · exact (c5_response_interpretation defaultConfig wHelperDC wDecode 0
      "junit" "PK" "data" "" "junit" "xml" "application/xml" w401
      rfl (by decide) (by decide)).1 (Or.inl (by decide))
  · exact (c5_response_interpretation defaultConfig wHelperDC wDecode 0
      "junit" "PK" "data" "" "junit" "xml" "application/xml" wOk
      rfl (by decide) (by decide)).2 wJson (by decide) (by decide)

/-- C6: the refresh cycle POSTs clientId and clientSecret as a JSON body
to base_url/api/apikeys/authenticate; a 2xx response replaces the cached
token with the whitespace-trimmed response body; a non-2xx response raises
the authentication error (so no state with a new token is produced), and
when it occurs during the auth flow the error propagates to the caller. -/
theorem c6_refresh_cycle (decode : JwtDecoder) (now : Int) (st : AuthState)
    (req : HRequest) (resp : Nat → HResponse) (r : HResponse) :
    build_refresh_request st =
      { method := "POST", url := st.base_url ++ "/api/apikeys/authenticate",
        params := [], headers := [], content := none,
        jsonBody := some [("clientId", st.client_id), ("clientSecret", st.client_secret)],
        files := none } ∧
    (is_success r.status = true →
      update_token st r = Except.ok { st with token := r.text.trim }) ∧
    (is_success r.status = false →
      update_token st r =
        Except.error ("Failed to refresh token: " ++ toString r.status ++ " - " ++ r.text)) ∧
    (st.data_center = false → check_valid_token decode st.token now = false →
      is_success (resp 0).status = false →
      auth_flow decode now st req resp =
        Except.error ("Failed to refresh token: " ++ toString (resp 0).status ++
          " - " ++ (resp 0).text)) := by
  refine ⟨rfl, ?_, ?_, ?_⟩
  · intro hok
    simp [update_token, hok]
  · intro hbad
    simp [update_token, hbad]
  · intro hdc hinv hbad
    simp [auth_flow, hdc, hinv, update_token, hbad]

/-- Witness for C6 at concrete responses: a 200 refresh response installs
the trimmed body as token, a 500 one raises, and a flow whose refresh
fails surfaces the error. -/
theorem c6_refresh_cycle_witness :
    build_refresh_request wAuthCloud =
      { method := "POST", url := wAuthCloud.base_url ++ "/api/apikeys/authenticate",
        params := [], headers := [], content := none,
        jsonBody := some [("clientId", wAuthCloud.client_id),
                          ("clientSecret", wAuthCloud.client_secret)],
        files := none } ∧
    update_token wAuthCloud wTok = Except.ok { wAuthCloud with token := wTok.text.trim } ∧
    update_token wAuthCloud { status := 500, text := "boom" } =
      Except.error ("Failed to refresh token: " ++ toString (500 : Nat) ++ " - " ++ "boom") ∧
    auth_flow wDecodeNone 0 wAuthCloud {} (fun _ => { status := 500, text := "boom" }) =
      Except.error ("Failed to refresh token: " ++ toString (500 : Nat) ++ " - " ++ "boom") := by
  have h := c6_refresh_cycle wDecodeNone 0 wAuthCloud {}
    (fun _ => { status := 500, text := "boom" }) wTok
  have h2 := c6_refresh_cycle wDecodeNone 0 wAuthCloud {}
    (fun _ => { status := 500, text := "boom" }) { status := 500, text := "boom" }
  exact ⟨h.1, h.2.1 (by decide), h2.2.2.1 (by decide),
         h2.2.2.2 rfl (by decide) (by decide)⟩

/-- C7 counterexample: with a non-empty client id and an empty secret in
cloud mode, the constructor raises even though cloud mode does not lack
both identifier and secret, contradicting the claim that construction
succeeds whenever neither failure condition holds. -/
theorem c7_counterexample :
    ("id" : String) ≠ "" ∧
    AgiletestAuth_init "id" "" "url" false "tok" =
      Except.error "Client ID and Client Secret are required for Cloud version" := by
  exact ⟨by decide, by rfl⟩

/-- C7 (amended): construction raises the cloud configuration error
exactly when the data_center flag is false and the identifier or the
secret is empty, raises the data-center configuration error exactly when
the flag is true and the token is empty, and otherwise succeeds with an
empty cached token. -/
theorem c7_construction_validation (ci cs u : String) (dc : Bool) (tok : String) :
    (dc = false → (ci = "" ∨ cs = "") →
      AgiletestAuth_init ci cs u dc tok =
        Except.error "Client ID and Client Secret are required for Cloud version") ∧
    (dc = false → ci ≠ "" → cs ≠ "" →
      AgiletestAuth_init ci cs u dc tok =
        Except.ok { client_id := ci, client_secret := cs, base_url := u, token := "",
                    data_center := false, data_center_token := tok }) ∧
    (dc = true → tok = "" →
      AgiletestAuth_init ci cs u dc tok =
        Except.error "AGILETEST_DC_TOKEN is required in Data Center mode") ∧
    (dc = true → tok ≠ "" →
      AgiletestAuth_init ci cs u dc tok =
        Except.ok { client_id := ci, client_secret := cs, base_url := u, token := "",
                    data_center := true, data_center_token := tok }) := by
  refine ⟨?_, ?_, ?_, ?_⟩
  · intro hdc hmiss
    subst hdc
    simp [AgiletestAuth_init, hmiss]
  · intro hdc hci hcs
    subst hdc
    simp [AgiletestAuth_init, hci, hcs]
  · intro hdc htok
    subst hdc
    simp [AgiletestAuth_init, htok]
  · intro hdc htok
    subst hdc
    simp [AgiletestAuth_init, htok]

/-- Witness for the amended C7: all four constructor outcomes at concrete
arguments. -/
theorem c7_construction_validation_witness :
    AgiletestAuth_init "" "sec" "u" false "tok" =
      Except.error "Client ID and Client Secret are required for Cloud version" ∧
    AgiletestAuth_init "id" "sec" "u" false "tok" =
      Except.ok { client_id := "id", client_secret := "sec", base_url := "u", token := "",
                  data_center := false, data_center_token := "tok" } ∧
    AgiletestAuth_init "id" "sec" "u" true "" =
      Except.error "AGILETEST_DC_TOKEN is required in Data Center mode" ∧
    AgiletestAuth_init "id" "sec" "u" true "tok" =
      Except.ok { client_id := "id", client_secret := "sec", base_url := "u", token := "",
                  data_center := true, data_center_token := "tok" } := by
  refine ⟨?_, ?_, ?_, ?_⟩
  · exact (c7_construction_validation "" "sec" "u" false "tok").1 rfl (Or.inl rfl)
  · exact (c7_construction_validation "id" "sec" "u" false "tok").2.1 rfl
      (by decide) (by decide)
  · exact (c7_construction_validation "id" "sec" "u" true "").2.2.1 rfl rfl
  · exact (c7_construction_validation "id" "sec" "u" true "tok").2.2.2 rfl (by decide)

/-- C4 counterexample: the string JUNIT is not a member of the supported
set, yet both upload operations succeed on it instead of raising, because
the code lowercases the identifier before validating. -/
theorem c4_counterexample :
    defaultConfig.TEST_EXECUTION_TYPES.contains "JUNIT" = false ∧
    (upload_test_execution_text_data defaultConfig wHelperDC wDecode 0
      "JUNIT" "PK" "data" "" (fun _ => wOk)).isOk = true ∧
    (upload_test_execution_multipart defaultConfig wHelperDC wDecode 0
      "JUNIT" "res" "info" (fun _ => wOk)).isOk = true := by
  exact ⟨by decide, by decide, by decide⟩

/-- C4 (amended): for every framework identifier whose lowercased form is
not in the supported set, both upload operations raise the configuration
error naming the lowercased offending value and the supported set; the
result is the same for every response oracle, so the error precedes any
network request and no state is produced. -/
theorem c4_unsupported_framework_rejected (cfg : Config) (h : Helper)
    (decode : JwtDecoder) (now : Int) (ftype pk td tek tr tei : String)
    (resp : Nat → HResponse)
    (hun : cfg.TEST_EXECUTION_TYPES.contains (lowerString ftype) = false) :
    upload_test_execution_text_data cfg h decode now ftype pk td tek resp =
      Except.error ("Invalid test execution type: " ++ lowerString ftype ++
        ". Supported frameworks: " ++ toString cfg.TEST_EXECUTION_TYPES) ∧
    upload_test_execution_multipart cfg h decode now ftype tr tei resp =
      Except.error ("Invalid test execution type: " ++ lowerString ftype ++
        ". Supported frameworks: " ++ toString cfg.TEST_EXECUTION_TYPES) := by
  have hun' : lowerString ftype ∉ cfg.TEST_EXECUTION_TYPES := by simpa using hun
  constructor
  · simp [upload_test_execution_text_data, check_auto_test_framework_type, hun']
  · simp [upload_test_execution_multipart, check_auto_test_framework_type, hun']

/-- Witness for the amended C4 at the unsupported identifier Cypress. -/
theorem c4_unsupported_framework_rejected_witness :
    upload_test_execution_text_data defaultConfig wHelperDC wDecode 0
      "Cypress" "PK" "data" "" (fun _ => wOk) =
      Except.error ("Invalid test execution type: " ++ lowerString "Cypress" ++
        ". Supported frameworks: " ++ toString defaultConfig.TEST_EXECUTION_TYPES) ∧
    upload_test_execution_multipart defaultConfig wHelperDC wDecode 0
      "Cypress" "res" "info" (fun _ => wOk) =
      Except.error ("Invalid test execution type: " ++ lowerString "Cypress" ++
        ". Supported frameworks: " ++ toString defaultConfig.TEST_EXECUTION_TYPES) :=
  c4_unsupported_framework_rejected defaultConfig wHelperDC wDecode 0
    "Cypress" "PK" "data" "" "res" "info" (fun _ => wOk) (by decide)

/-- C10: both upload operations depend on the framework identifier only
through its lowercased form: two identifiers with the same lowercasing
behave identically everywhere, and an identifier whose lowercased form is
supported validates to exactly that lowercased value (which then feeds the
lookups and the endpoint path). -/
theorem c10_case_insensitive_framework (cfg : Config) (h : Helper)
    (decode : JwtDecoder) (now : Int) (s t pk td tek tr tei : String)
    (resp : Nat → HResponse)
    (hlc : lowerString s = lowerString t) :
    upload_test_execution_text_data cfg h decode now s pk td tek resp =
      upload_test_execution_text_data cfg h decode now t pk td tek resp ∧
    upload_test_execution_multipart cfg h decode now s tr tei resp =
      upload_test_execution_multipart cfg h decode now t tr tei resp ∧
    (∀ u : String, cfg.TEST_EXECUTION_TYPES.contains (lowerString u) = true →
      check_auto_test_framework_type cfg u = Except.ok (lowerString u)) := by
  refine ⟨?_, ?_, ?_⟩
  · simp only [upload_test_execution_text_data, check_auto_test_framework_type, hlc]
  · simp only [upload_test_execution_multipart, check_auto_test_framework_type, hlc]
  · intro u hu
    have hu' : lowerString u ∈ cfg.TEST_EXECUTION_TYPES := by simpa using hu
    simp [check_auto_test_framework_type, hu']

/-- Witness for C10: JUnit and junit produce identical upload calls, and
JUnit validates to junit. -/
theorem c10_case_insensitive_framework_witness :
    upload_test_execution_text_data defaultConfig wHelperDC wDecode 0
      "JUnit" "PK" "data" "" (fun _ => wOk) =
      upload_test_execution_text_data defaultConfig wHelperDC wDecode 0
        "junit" "PK" "data" "" (fun _ => wOk) ∧
    upload_test_execution_multipart defaultConfig wHelperDC wDecode 0
      "JUnit" "res" "info" (fun _ => wOk) =
      upload_test_execution_multipart defaultConfig wHelperDC wDecode 0
        "junit" "res" "info" (fun _ => wOk) ∧
    check_auto_test_framework_type defaultConfig "JUnit" = Except.ok "junit" := by
  have h := c10_case_insensitive_framework defaultConfig wHelperDC wDecode 0
    "JUnit" "junit" "PK" "data" "" "res" "info" (fun _ => wOk) (by decide)
  refine ⟨h.1, h.2.1, ?_⟩
  have h3 := h.2.2 "JUnit" (by decide)
  simpa using h3

/-- C8: for every framework passing validation, the text upload POSTs to
/rest/agiletest/1.0/test-executions/automation/framework in data-center
mode and /ds/test-executions/framework in cloud mode, with projectKey as a
query parameter, testExecutionKey only when non-empty, the raw payload as
body and Content-Type the resolved mime type; the multipart upload POSTs
to /plugins/servlet/agiletest/automation/multipart/framework in
data-center mode and /ds/test-executions/framework/multipart in cloud
mode. -/
theorem c8_endpoint_paths_and_request_shape (cfg : Config) (h : Helper)
    (decode : JwtDecoder) (now : Int)
    (ftype pk td tek tr tei ft' ext mime jm : String) (resp : Nat → HResponse)
    (hchk : check_auto_test_framework_type cfg ftype = Except.ok ft')
    (hmime : get_file_type_from_test_framework cfg ft' = Except.ok (ext, mime))
    (hjson : cfg.MIME_TYPE_MAPPING.lookup "json" = some jm)
    (hbody : (resp 0).body_json.isSome = true) :
    (h.data_center = true → h.auth.data_center = true →
      Except.map (fun o => o.2.2)
        (upload_test_execution_text_data cfg h decode now ftype pk td tek resp) =
        Except.ok [{ method := "POST",
                     url := "/rest/agiletest/1.0/test-executions/automation/" ++ ft',
                     params := [("projectKey", pk)] ++
                       (if tek ≠ "" then [("testExecutionKey", tek)] else []),
                     headers := [("Content-Type", mime),
                                 ("Authorization", "Bearer " ++ h.auth.data_center_token)],
                     content := some td, jsonBody := none, files := none }]) ∧
    (h.data_center = false → h.auth.data_center = false →
      check_valid_token decode h.auth.token now = true → (resp 0).status ≠ 401 →
      Except.map (fun o => o.2.2)
        (upload_test_execution_text_data cfg h decode now ftype pk td tek resp) =
        Except.ok [{ method := "POST",
                     url := "/ds/test-executions/" ++ ft',
                     params := [("projectKey", pk)] ++
                       (if tek ≠ "" then [("testExecutionKey", tek)] else []),
                     headers := [("Content-Type", mime),
                                 ("Authorization", "JWT " ++ h.auth.token)],
                     content := some td, jsonBody := none, files := none }]) ∧
    (h.data_center = true → h.auth.data_center = true →
      Except.map (fun o => o.2.2)
        (upload_test_execution_multipart cfg h decode now ftype tr tei resp) =
        Except.ok [{ method := "POST",
                     url := "/plugins/servlet/agiletest/automation/multipart/" ++ ft',
                     params := [],
                     headers := [("Authorization", "Bearer " ++ h.auth.data_center_token)],
                     content := none, jsonBody := none,
                     files := some [("results", ("results." ++ ext, tr, mime)),
                                    ("testExecution", ("info.json", tei, jm))] }]) ∧
    (h.data_center = false → h.auth.data_center = false →
      check_valid_token decode h.auth.token now = true → (resp 0).status ≠ 401 →
      Except.map (fun o => o.2.2)
        (upload_test_execution_multipart cfg h decode now ftype tr tei resp) =
        Except.ok [{ method := "POST",
                     url := "/ds/test-executions/" ++ ft' ++ "/multipart",
                     params := [],
                     headers := [("Authorization", "JWT " ++ h.auth.token)],
                     content := none, jsonBody := none,
                     files := some [("results", ("results." ++ ext, tr, mime)),
                                    ("testExecution", ("info.json", tei, jm))] }]) := by
  obtain ⟨j, hj⟩ := Option.isSome_iff_exists.mp hbody
  refine ⟨?_, ?_, ?_, ?_⟩
  · intro hdc hadc
    rcases Bool.eq_false_or_eq_true (is_success (resp 0).status) with hs | hs
    · simp [upload_test_execution_text_data, hchk, hmime, auth_flow, hadc, hdc,
            interpret_upload_response, check_response, hs, hj, setHeader, Except.map]
    · simp [upload_test_execution_text_data, hchk, hmime, auth_flow, hadc, hdc,
            interpret_upload_response, check_response, hs, hj, setHeader, Except.map]
  · intro hdc hadc hvalid h401
    rcases Bool.eq_false_or_eq_true (is_success (resp 0).status) with hs | hs
    · simp [upload_test_execution_text_data, hchk, hmime, auth_flow, hadc, hdc,
            hvalid, h401, interpret_upload_response, check_response, hs, hj,
            setHeader, Except.map]
    · simp [upload_test_execution_text_data, hchk, hmime, auth_flow, hadc, hdc,
            hvalid, h401, interpret_upload_response, check_response, hs, hj,
            setHeader, Except.map]
  · intro hdc hadc
    rcases Bool.eq_false_or_eq_true (is_success (resp 0).status) with hs | hs
    · simp [upload_test_execution_multipart, hchk, hmime, hjson, auth_flow, hadc,
            hdc, interpret_upload_response, check_response, hs, hj, setHeader,
            Except.map]
    · simp [upload_test_execution_multipart, hchk, hmime, hjson, auth_flow, hadc,
            hdc, interpret_upload_response, check_response, hs, hj, setHeader,
            Except.map]
  · intro hdc hadc hvalid h401
    rcases Bool.eq_false_or_eq_true (is_success (resp 0).status) with hs | hs
    · simp [upload_test_execution_multipart, hchk, hmime, hjson, auth_flow, hadc,
            hdc, hvalid, h401, interpret_upload_response, check_response, hs, hj,
            setHeader, Except.map]
    · simp [upload_test_execution_multipart, hchk, hmime, hjson, auth_flow, hadc,
            hdc, hvalid, h401, interpret_upload_response, check_response, hs, hj,
            setHeader, Except.map]

/-- Witness for C8: all four endpoint shapes at framework junit, in
data-center and cloud mode. -/
theorem c8_endpoint_paths_and_request_shape_witness :
    Except.map (fun o => o.2.2)
      (upload_test_execution_text_data defaultConfig wHelperDC wDecode 0
        "junit" "PK" "data" "TEK" (fun _ => wOk)) =
      Except.ok [{ method := "POST",
                   url := "/rest/agiletest/1.0/test-executions/automation/" ++ "junit",
                   params := [("projectKey", "PK")] ++
                     (if ("TEK" : String) ≠ "" then [("testExecutionKey", "TEK")] else []),
                   headers := [("Content-Type", "application/xml"),
                               ("Authorization", "Bearer " ++ wAuthDC.data_center_token)],
                   content := some "data", jsonBody := none, files := none }] ∧
    Except.map (fun o => o.2.2)
      (upload_test_execution_text_data defaultConfig wHelperCloud wDecode 0
        "junit" "PK" "data" "TEK" (fun _ => wOk)) =
      Except.ok [{ method := "POST",
                   url := "/ds/test-executions/" ++ "junit",
                   params := [("projectKey", "PK")] ++
                     (if ("TEK" : String) ≠ "" then [("testExecutionKey", "TEK")] else []),
                   headers := [("Content-Type", "application/xml"),
                               ("Authorization", "JWT " ++ wAuthCloud.token)],
                   content := some "data", jsonBody := none, files := none }] ∧
    Except.map (fun o => o.2.2)
      (upload_test_execution_multipart defaultConfig wHelperDC wDecode 0
        "junit" "res" "info" (fun _ => wOk)) =
      Except.ok [{ method := "POST",
                   url := "/plugins/servlet/agiletest/automation/multipart/" ++ "junit",
                   params := [],
                   headers := [("Authorization", "Bearer " ++ wAuthDC.data_center_token)],
                   content := none, jsonBody := none,
                   files := some [("results", ("results." ++ "xml", "res", "application/xml")),
                                  ("testExecution", ("info.json", "info", "application/json"))] }] ∧
    Except.map (fun o => o.2.2)
      (upload_test_execution_multipart defaultConfig wHelperCloud wDecode 0
        "junit" "res" "info" (fun _ => wOk)) =
      Except.ok [{ method := "POST",
                   url := "/ds/test-executions/" ++ "junit" ++ "/multipart",
                   params := [],
                   headers := [("Authorization", "JWT " ++ wAuthCloud.token)],
                   content := none, jsonBody := none,
                   files := some [("results", ("results." ++ "xml", "res", "application/xml")),
                                  ("testExecution", ("info.json", "info", "application/json"))] }] := by
  have hdc := c8_endpoint_paths_and_request_shape defaultConfig wHelperDC wDecode 0
    "junit" "PK" "data" "TEK" "res" "info" "junit" "xml" "application/xml"
    "application/json" (fun _ => wOk) (by decide) (by decide) (by decide) (by decide)
  have hcl := c8_endpoint_paths_and_request_shape defaultConfig wHelperCloud wDecode 0
    "junit" "PK" "data" "TEK" "res" "info" "junit" "xml" "application/xml"
    "application/json" (fun _ => wOk) (by decide) (by decide) (by decide) (by decide)
  exact ⟨hdc.1 rfl rfl, hcl.2.1 rfl rfl (by decide) (by decide),
         hdc.2.2.1 rfl rfl, hcl.2.2.2 rfl rfl (by decide) (by decide)⟩

/-- Two string concatenations whose left parts start with different
characters are distinct. -/
theorem string_append_ne_of_head (c d : Char) (s t a b : String)
    (hs : s.data.head? = some c) (ht : t.data.head? = some d) (hcd : c ≠ d) :
    s ++ a ≠ t ++ b := by
  intro h
  have h1 : s.data ++ a.data = t.data ++ b.data := congrArg String.data h
  cases hs' : s.data with
  | nil => rw [hs'] at hs; simp at hs
  | cons x xs =>
    cases ht' : t.data with
    | nil => rw [ht'] at ht; simp at ht
    | cons y ys =>
      rw [hs'] at hs
      rw [ht'] at ht
      simp only [List.head?_cons, Option.some.injEq] at hs ht
      rw [hs', ht'] at h1
      simp only [List.cons_append, List.cons.injEq] at h1
      exact hcd (hs ▸ ht ▸ h1.1)

/-- Modelled from the spec: a configuration whose supported set contains
junit but whose framework-to-extension table is missing the entry,
exercising the missing-mapping error path. -/
def wCfgNoExt : Config :=
  { TEST_EXECUTION_TYPES := ["junit"],
    FRAMEWORK_RESULT_FILETYPE_MAPPING := [],
    MIME_TYPE_MAPPING := [("json", "application/json")] }

/-- Modelled from the spec: a configuration whose framework-to-extension
table maps junit to xml but whose mime table is missing the xml entry,
exercising the second missing-mapping error path. -/
def wCfgNoMime : Config :=
  { TEST_EXECUTION_TYPES := ["junit"],
    FRAMEWORK_RESULT_FILETYPE_MAPPING := [("junit", "xml")],
    MIME_TYPE_MAPPING := [("json", "application/json")] }

/-- C9: the multipart upload sends exactly two named parts, results
(filename results.ext, the raw results payload, the resolved mime type)
and testExecution (filename info.json, the metadata payload, the json mime
type); a framework with no extension mapping, or an extension with no mime
mapping, raises the corresponding configuration error for every response
oracle (hence before any network request), and both of these error
messages are distinct from the unsupported-framework error message. -/
theorem c9_multipart_parts_and_lookup_errors (cfg : Config) (h : Helper)
    (decode : JwtDecoder) (now : Int) (ftype tr tei ft' ext mime jm e : String)
    (resp : Nat → HResponse)
    (hchk : check_auto_test_framework_type cfg ftype = Except.ok ft') :
    (get_file_type_from_test_framework cfg ft' = Except.ok (ext, mime) →
      cfg.MIME_TYPE_MAPPING.lookup "json" = some jm →
      h.auth.data_center = true → (resp 0).body_json.isSome = true →
      Except.map (fun o => o.2.2.map (fun r => r.files))
        (upload_test_execution_multipart cfg h decode now ftype tr tei resp) =
        Except.ok [some [("results", ("results." ++ ext, tr, mime)),
                         ("testExecution", ("info.json", tei, jm))]]) ∧
    (cfg.FRAMEWORK_RESULT_FILETYPE_MAPPING.lookup ft' = none →
      upload_test_execution_multipart cfg h decode now ftype tr tei resp =
        Except.error ("Extension not found for framework type " ++ ft')) ∧
    (cfg.FRAMEWORK_RESULT_FILETYPE_MAPPING.lookup ft' = some e →
      cfg.MIME_TYPE_MAPPING.lookup e = none →
      upload_test_execution_multipart cfg h decode now ftype tr tei resp =
        Except.error ("Mime type not found for extension " ++ e)) ∧
    (∀ a b : String, ("Extension not found for framework type " ++ a) ≠
        ("Invalid test execution type: " ++ b)) ∧
    (∀ a b : String, ("Mime type not found for extension " ++ a) ≠
        ("Invalid test execution type: " ++ b)) := by
  refine ⟨?_, ?_, ?_, ?_, ?_⟩
  · intro hmime hjson hadc hbody
    obtain ⟨j, hj⟩ := Option.isSome_iff_exists.mp hbody
    rcases Bool.eq_false_or_eq_true (is_success (resp 0).status) with hs | hs
    · simp [upload_test_execution_multipart, hchk, hmime, hjson, auth_flow, hadc,
            interpret_upload_response, check_response, hs, hj, setHeader, Except.map]
    · simp [upload_test_execution_multipart, hchk, hmime, hjson, auth_flow, hadc,
            interpret_upload_response, check_response, hs, hj, setHeader, Except.map]
  · intro hnoext
    simp [upload_test_execution_multipart, hchk,
          get_file_type_from_test_framework, hnoext]
  · intro hext hnomime
    simp [upload_test_execution_multipart, hchk,
          get_file_type_from_test_framework, hext, hnomime]
  · intro a b
    exact string_append_ne_of_head 'E' 'I'
      "Extension not found for framework type " "Invalid test execution type: "
      a b (by decide) (by decide) (by decide)
  · intro a b
    exact string_append_ne_of_head 'M' 'I'
      "Mime type not found for extension " "Invalid test execution type: "
      a b (by decide) (by decide) (by decide)

/-- Witness for C9: the two parts at framework junit; the two
missing-mapping errors at configurations lacking the respective entries. -/
theorem c9_multipart_parts_and_lookup_errors_witness :
    Except.map (fun o => o.2.2.map (fun r => r.files))
      (upload_test_execution_multipart defaultConfig wHelperDC wDecode 0
        "junit" "res" "info" (fun _ => wOk)) =
      Except.ok [some [("results", ("results." ++ "xml", "res", "application/xml")),
                       ("testExecution", ("info.json", "info", "application/json"))]] ∧
    upload_test_execution_multipart wCfgNoExt wHelperDC wDecode 0
      "junit" "res" "info" (fun _ => wOk) =
      Except.error ("Extension not found for framework type " ++ "junit") ∧
    upload_test_execution_multipart wCfgNoMime wHelperDC wDecode 0
      "junit" "res" "info" (fun _ => wOk) =
      Except.error ("Mime type not found for extension " ++ "xml") := by
  refine ⟨?_, ?_, ?_⟩
  · exact (c9_multipart_parts_and_lookup_errors defaultConfig wHelperDC wDecode 0
      "junit" "res" "info" "junit" "xml" "application/xml" "application/json" "xml"
      (fun _ => wOk) (by decide)).1 (by decide) (by decide) rfl (by decide)
  · exact (c9_multipart_parts_and_lookup_errors wCfgNoExt wHelperDC wDecode 0
      "junit" "res" "info" "junit" "xml" "application/xml" "application/json" "xml"
      (fun _ => wOk) (by decide)).2.1 (by decide)
  · exact (c9_multipart_parts_and_lookup_errors wCfgNoMime wHelperDC wDecode 0
      "junit" "res" "info" "junit" "xml" "application/xml" "application/json" "xml"
      (fun _ => wOk) (by decide)).2.2.1 (by decide) (by decide)
